import Mathlib

/-!
Verification development for the urban-resilience simulator's core
simulation engine (`backend/app/core/simulation_engine/`).

The Python source is shallowly embedded: float arithmetic is modelled by
exact rationals (ℚ), Python `float('inf')` by `Option ℚ` with `none` for
the infinite cost, mutable `networkx` graph state by explicit state
passing over lists of records, and `dict` iteration by list folds in
insertion order.
-/

namespace UrbanSim

/-- Models `RoadObstruction` (models.py): the fields relevant to width
updates.  Pydantic enforces `remaining_width ≥ 0` and
`0 ≤ blocked_percentage ≤ 100`; those are carried as hypotheses where
needed rather than baked into the type. -/
structure RoadObstruction where
  obstruction_id : String
  road_edge_id : String
  remaining_width : ℚ
  blocked_percentage : ℚ
  deriving Repr, DecidableEq

/-- Edge attribute record of the analyzer's road graph, as stored by
`initialize_road_network` (network_analyzer.py): `width` is the mutable
current width, `original_width` the immutable initial width. -/
structure RoadEdge where
  edge_id : String
  distance : ℚ
  width : ℚ
  original_width : ℚ
  speed_limit : ℚ
  deriving Repr, DecidableEq

/-- Models the reset phase of `update_obstructions` (network_analyzer.py):
`for u, v, data in edges: data["width"] = data["original_width"]`. -/
def reset_edges (es : List RoadEdge) : List RoadEdge :=
  es.map (fun e => { e with width := e.original_width })

/-- Models `_find_edge_by_id` followed by the width assignment in
`update_obstructions`: the first edge whose `edge_id` matches is updated
(`self.road_graph[u][v]["width"] = obstruction.remaining_width`); when no
edge matches, the obstruction is skipped (only a warning is printed). -/
def set_width_first (es : List RoadEdge) (eid : String) (w : ℚ) : List RoadEdge :=
  match es with
  | [] => []
  | e :: rest =>
      if e.edge_id = eid then { e with width := w } :: rest
      else e :: set_width_first rest eid w

/-- The application loop of `update_obstructions`: obstructions are
applied one by one in list order. -/
def apply_obstruction_list (es : List RoadEdge) (obs : List RoadObstruction) : List RoadEdge :=
  obs.foldl (fun acc o => set_width_first acc o.road_edge_id o.remaining_width) es

/-- `update_obstructions` (network_analyzer.py, lines 81–123): reset all
edge widths to their original width, then apply each obstruction's
remaining width to its target edge in list order. -/
def update_obstructions (es : List RoadEdge) (obs : List RoadObstruction) : List RoadEdge :=
  apply_obstruction_list (reset_edges es) obs

/-- Pointwise description of the application loop: the width an edge with
id `eid` ends up with after folding the obstruction list over start width
`w0` — the *last* matching obstruction wins. -/
def fold_width (obs : List RoadObstruction) (eid : String) (w0 : ℚ) : ℚ :=
  obs.foldl (fun w o => if o.road_edge_id = eid then o.remaining_width else w) w0

/-- The ids of the edges of a graph, in storage order. -/
def edge_ids (es : List RoadEdge) : List String :=
  es.map (fun e => e.edge_id)

/-- An obstruction targets an edge present in the graph. -/
def matches_some_edge (es : List RoadEdge) (o : RoadObstruction) : Bool :=
  es.any (fun e => e.edge_id = o.road_edge_id)

/-- Vehicle parameters (models.py `VehicleConfig`). -/
structure VehicleConfig where
  width : ℚ
  length : ℚ
  max_speed : ℚ
  can_use_sidewalk : Bool
  minimum_road_width : ℚ
  deriving Repr, DecidableEq

/-- Default ambulance configuration (models.py `DEFAULT_VEHICLE_CONFIGS`):
width 2.5, length 7.0, max speed 80 km/h, minimum road width 3.0 m. -/
def ambulance_config : VehicleConfig :=
  { width := 5/2, length := 7, max_speed := 80,
    can_use_sidewalk := false, minimum_road_width := 3 }

/-- `_calculate_edge_cost` (network_analyzer.py, lines 1080–1149),
following the source's control flow: `none` models `float('inf')` for an
impassable edge; otherwise travel time in seconds with the penalty
multiplier chain exactly as in the source. -/
def calculate_edge_cost (e : RoadEdge) (v : VehicleConfig) : Option ℚ :=
  if e.width < v.minimum_road_width then none
  else
    let effective_speed := min e.speed_limit v.max_speed
    let speed_ms := effective_speed * 1000 / 3600
    let base_travel_time := e.distance / speed_ms
    let width_quotient := e.width / e.original_width
    let penalty_multiplier : ℚ :=
      if width_quotient < 1/2 then 3
      else if width_quotient < 7/10 then 2
      else if e.width < v.minimum_road_width * (12/10) then 13/10
      else 1
    some (base_travel_time * penalty_multiplier)

/-- Penalty multiplier as worded by the specification's claim: ratio
< 0.5 gives ×3.0, ratio in [0.5, 0.7) gives ×2.0, otherwise ×1.3 when
the current width is below 1.2 times the vehicle's minimum and ×1.0
otherwise.  Stated independently of the source to compare against it. -/
def claim_penalty (e : RoadEdge) (v : VehicleConfig) : ℚ :=
  let r := e.width / e.original_width
  if r < 1/2 then 3
  else if 1/2 ≤ r ∧ r < 7/10 then 2
  else if e.width < (12/10) * v.minimum_road_width then 13/10
  else 1

/-- Traversal cost as worded by the specification's claim: distance
divided by min(speed_limit, vehicle max speed) converted to seconds,
times the claim's penalty; infinite exactly when the current width is
below the vehicle's minimum road width. -/
def claim_edge_cost (e : RoadEdge) (v : VehicleConfig) : Option ℚ :=
  if e.width < v.minimum_road_width then none
  else some (e.distance / (min e.speed_limit v.max_speed * 1000 / 3600) * claim_penalty e v)

/-- Tree vulnerability levels (models.py `VulnerabilityLevel`). -/
inductive VulnerabilityLevel
  | I
  | II
  | III
  deriving Repr, DecidableEq

/-- Default `vulnerability_collapse_rates` of `DisasterSimulationConfig`
(models.py): I → 0.8, II → 0.5, III → 0.1. -/
def default_collapse_rate : VulnerabilityLevel → ℚ
  | .I => 4/5
  | .II => 1/2
  | .III => 1/10

/-- `intensity_multiplier = min(1.0, disaster_intensity / 10.0)` from
`_simulate_tree_collapses` (disaster_simulator.py, line 114). -/
def intensity_multiplier (d : ℚ) : ℚ := min 1 (d / 10)

/-- `final_probability = min(1.0, base * (0.5 + 0.5 * intensity_multiplier))`
from `_simulate_tree_collapses` (disaster_simulator.py, lines 115–117):
the probability compared against the uniform draw to decide collapse. -/
def final_collapse_probability (base d : ℚ) : ℚ :=
  min 1 (base * (1/2 + 1/2 * intensity_multiplier d))

/-- The edge set of a node path as built in
`_is_path_sufficiently_different` (network_analyzer.py, lines 1842–1885):
for each consecutive pair both the edge and its reverse are inserted into
a set. -/
def path_edge_set (p : List String) : Finset (String × String) :=
  (p.zip p.tail).foldl (fun s e => insert (e.2, e.1) (insert e s)) ∅

/-- `difference_ratio = 1.0 - len(common_edges) / len(new_path_edges)`
(network_analyzer.py, line 1880), with the two paths' directed edge
sets. -/
def difference_fraction (newP exP : List String) : ℚ :=
  1 - ((path_edge_set newP ∩ path_edge_set exP).card : ℚ) / ((path_edge_set newP).card : ℚ)

/-- The default `min_difference_ratio` of
`_is_path_sufficiently_different` (network_analyzer.py, line 1846):
`0.3`.  `find_alternative_paths` calls the check without overriding it. -/
def default_min_difference : ℚ := 3/10

/-- `_is_path_sufficiently_different`: the candidate is rejected as soon
as its difference fraction against one previously accepted path falls
below the threshold; paths whose edge set is empty skip the check. -/
def is_path_sufficiently_different
    (newP : List String) (existing : List (List String)) (minDiff : ℚ) : Bool :=
  existing.all (fun exP =>
    if 0 < (path_edge_set newP).card then
      if difference_fraction newP exP < minDiff then false else true
    else true)

/-- The acceptance loop of `find_alternative_paths` (network_analyzer.py,
lines 1543–1612), abstracted over the sequence of A* outcomes
(`candidates`, one per attempt, `[]` encoding "no path found"): a
candidate is appended to the accepted list only if it passes
`is_path_sufficiently_different` at the default threshold against all
previously accepted paths, and the loop stops at the first empty or
insufficiently different candidate. -/
def collect_alternatives : List (List String) → List (List String) → List (List String)
  | [], acc => acc
  | c :: rest, acc =>
      if c = [] then acc
      else if is_path_sufficiently_different c acc default_min_difference then
        collect_alternatives rest (acc ++ [c])
      else acc

/-! ### Disaster geometry (disaster_simulator.py)

The geometric routines are embedded for roads whose segment runs along
the positive x axis (`from_node = (x1, y0)`, `to_node = (x2, y0)` with
`x1 < x2`), so that every trigonometric quantity of the source is an
exact rational: `road_angle = atan2(0, x2-x1) = 0`, the point-to-line
distance formula collapses to `|tree_y - y0|`, and the angle
normalisation chain of `_calculate_tree_road_blockage_simple`
(`tree_to_perpendicular_angle` reduced into [0, π/2]) preserves
`|cos|`, so `cos(normalised angle) = |cos(θ - π/2)| = |sin θ|`.  The
collapse direction is carried as the exact pair
`(dir_cos, dir_sin) = (cos θ, sin θ)`. -/

/-- A collapsing tree: position, fall geometry and direction cosines of
the collapse angle (models `TreeCollapseEvent` data as consumed by
`_calculate_tree_road_blockage_simple`). -/
structure TreeFall where
  base_x : ℚ
  base_y : ℚ
  height : ℚ
  trunk_width : ℚ
  dir_cos : ℚ
  dir_sin : ℚ
  deriving Repr, DecidableEq

/-- A road edge running along the x axis from `(x1, y0)` to `(x2, y0)`
with the given width (the rectangular footprint used by
`_create_road_polygon` / `_line_intersects_road`). -/
structure HRoad where
  x1 : ℚ
  x2 : ℚ
  y0 : ℚ
  width : ℚ
  deriving Repr, DecidableEq

/-- Clip the parameter interval `[t0, t1]` of a segment `p + t*d`
against the slab `lo ≤ p + t*d ≤ hi` (exact Liang–Barsky step). -/
def clip_axis (p d lo hi t0 t1 : ℚ) : Option (ℚ × ℚ) :=
  if d = 0 then (if lo ≤ p ∧ p ≤ hi then some (t0, t1) else none)
  else
    let ta := (lo - p) / d
    let tb := (hi - p) / d
    some (max t0 (min ta tb), min t1 (max ta tb))

/-- Exact segment / axis-aligned-rectangle intersection test: models
shapely's `tree_line.intersects(road_polygon)` in
`_line_intersects_road` for the axis-aligned road rectangle (boundary
contact counts as intersecting, as in shapely). -/
def seg_box_intersects (px py qx qy lx hx ly hy : ℚ) : Bool :=
  match clip_axis px (qx - px) lx hx 0 1 with
  | none => false
  | some (t0, t1) =>
      match clip_axis py (qy - py) ly hy t0 t1 with
      | none => false
      | some (t0', t1') => decide (t0' ≤ t1')

/-- `_calculate_tree_road_blockage_simple` (disaster_simulator.py,
lines 259–360) for a road along the x axis, following the source's
control flow: distance pre-check, segment/rectangle intersection check,
projection of the tree length onto the road-perpendicular direction
(`tree_height * |sin θ|` here, see section comment), subtraction of the
clearance to the road edge, clamping to the road width.  Returns
`(occupied_width, blocked_percentage)`. -/
def tree_road_blockage_simple (t : TreeFall) (r : HRoad) : ℚ × ℚ :=
  let tree_to_road_distance := |t.base_y - r.y0|
  let road_half_width := r.width / 2
  if tree_to_road_distance > t.height + road_half_width then (0, 0)
  else
    let tree_end_x := t.base_x + t.height * t.dir_cos
    let tree_end_y := t.base_y + t.height * t.dir_sin
    if ¬ seg_box_intersects t.base_x t.base_y tree_end_x tree_end_y
        r.x1 r.x2 (r.y0 - road_half_width) (r.y0 + road_half_width) then (0, 0)
    else
      let tree_projection_length := t.height * |t.dir_sin|
      let distance_to_road_edge := max 0 (tree_to_road_distance - road_half_width)
      let occupied_width := max 0 (tree_projection_length - distance_to_road_edge)
      let occupied_width := min occupied_width r.width
      let blocked_percentage :=
        if 0 < r.width then min 100 (occupied_width / r.width * 100) else 100
      (occupied_width, blocked_percentage)

/-- The tail of `_calculate_road_intersection` (disaster_simulator.py,
lines 449–510): the remaining width recorded in the produced
`RoadObstruction` is `max(0, road_width - occupied_width)` with
`occupied_width` from `_calculate_tree_road_blockage_simple`; `none`
when no obstruction is produced. -/
def road_intersection_remaining_width (t : TreeFall) (r : HRoad) : Option ℚ :=
  let ob := tree_road_blockage_simple t r
  if ob.1 ≤ 0 ∨ ob.2 ≤ 0 then none
  else some (max 0 (r.width - ob.1))

/-- Clip a feasible y interval against the half-plane `a * y ≤ b`. -/
def clip_halfline (a b : ℚ) : Option (ℚ × ℚ) → Option (ℚ × ℚ)
  | none => none
  | some (lo, hi) =>
      if 0 < a then some (lo, min hi (b / a))
      else if a < 0 then some (max lo (b / a), hi)
      else if 0 ≤ b then some (lo, hi) else none

/-- Length of a feasible interval (`0` when empty). -/
def interval_length : Option (ℚ × ℚ) → ℚ
  | none => 0
  | some (lo, hi) => max 0 (hi - lo)

/-- The fallen-tree quadrilateral of `_calculate_tree_blockage_polygon`
(base corners ± half-trunk-width perpendicular offset, crown corners the
same at the tip) restricted to the vertical line `x = p`, as half-plane
constraints `a * y ≤ b` on `y`.  For unit `(dir_cos, dir_sin)` the
quadrilateral is exactly `{P : 0 ≤ (P-B)·d ≤ height, |(P-B)·n| ≤
trunk_width/2}` with `d = (dir_cos, dir_sin)`, `n = (-dir_sin, dir_cos)`. -/
def tree_quad_constraints (t : TreeFall) (p : ℚ) : List (ℚ × ℚ) :=
  let ex := p - t.base_x
  [ (-t.dir_sin, ex * t.dir_cos - t.dir_sin * t.base_y),
    (t.dir_sin, t.height - ex * t.dir_cos + t.dir_sin * t.base_y),
    (t.dir_cos, t.trunk_width / 2 + ex * t.dir_sin + t.dir_cos * t.base_y),
    (-t.dir_cos, t.trunk_width / 2 - ex * t.dir_sin - t.dir_cos * t.base_y) ]

/-- Blocked length of the vertical cross-section line at `x = p` inside
the fallen-tree quadrilateral: models `cross_line.intersection(...)`.
`.length` in `_calculate_width_at_cross_section`, with the cross line
spanning the road's y bounds extended by 1 on each side exactly as the
source builds it. -/
def cross_section_blocked_length (t : TreeFall) (r : HRoad) (p : ℚ) : ℚ :=
  let road_half_width := r.width / 2
  let init : Option (ℚ × ℚ) :=
    some (r.y0 - road_half_width - 1, r.y0 + road_half_width + 1)
  interval_length ((tree_quad_constraints t p).foldl (fun iv c => clip_halfline c.1 c.2 iv) init)

/-- `_calculate_width_at_cross_section` (disaster_simulator.py, lines
669–711) for a vertical cross line at `x = p` over an x-axis road: the
cross line misses the road rectangle only outside `[x1, x2]` (then the
full `original_width` is returned); otherwise the road cross-section
length is the road width and the remaining width is the road width minus
the blocked length, clamped at 0. -/
def cross_section_remaining_width (t : TreeFall) (r : HRoad) (p original_width : ℚ) : ℚ :=
  if r.x1 ≤ p ∧ p ≤ r.x2 then
    max 0 (r.width - cross_section_blocked_length t r p)
  else original_width

/-- Bounds of the fallen-tree quadrilateral along x (shapely
`polygon.bounds` is the vertex min/max): used as the sampling extent of
`_calculate_cross_sectional_width` whenever the obstruction polygon is
the tree quadrilateral itself (the case of a quadrilateral lying fully
inside the road rectangle, where tree ∩ road = tree). -/
def quad_x_bounds (t : TreeFall) : ℚ × ℚ :=
  let off_x := -(t.trunk_width / 2) * t.dir_sin
  let tip_x := t.base_x + t.height * t.dir_cos
  let xs0 := t.base_x + off_x
  let xs1 := t.base_x - off_x
  let xs2 := tip_x - off_x
  let xs3 := tip_x + off_x
  (min (min xs0 xs1) (min xs2 xs3), max (max xs0 xs1) (max xs2 xs3))

/-- `_calculate_cross_sectional_width` (disaster_simulator.py, lines
594–667), horizontal branch (road x extent exceeding its width): sample
10 vertical cross-sections spanning the obstruction's x extent and take
the minimum remaining width, starting from the full original width. -/
def cross_sectional_min_width (t : TreeFall) (r : HRoad) (original_width : ℚ) : ℚ :=
  let b := quad_x_bounds t
  let num_samples : ℕ := 10
  (List.range num_samples).foldl
    (fun m i =>
      let position :=
        if b.1 = b.2 then b.1
        else b.1 + (b.2 - b.1) * (i : ℚ) / ((num_samples : ℚ) - 1)
      min m (cross_section_remaining_width t r position original_width))
    original_width

/-- The tree/road configuration of the cross-section counterexample: a
100 m road of width 6 along the x axis, and a tree at (50, 5/2) of
height 5 and trunk width 1 falling in the direction
(cos θ, sin θ) = (-4/5, -3/5) (a unit vector, so the embedding's
constraint form of the quadrilateral is exact).  Its fallen-tree
quadrilateral has vertices (50.3, 2.1), (49.7, 2.9), (45.7, -0.1),
(46.3, -0.9), all strictly inside the road rectangle
[0, 100] × [-3, 3], so the obstruction polygon (tree ∩ road) is the
quadrilateral itself and `quad_x_bounds` is its sampling extent. -/
def tree_ce : TreeFall :=
  { base_x := 50, base_y := 5/2, height := 5, trunk_width := 1,
    dir_cos := -4/5, dir_sin := -3/5 }

/-- The road of the cross-section counterexample. -/
def road_ce : HRoad := { x1 := 0, x2 := 100, y0 := 0, width := 6 }

/-- `last_matching obs eid`: the last obstruction in the list targeting
edge `eid` — the one whose width survives the source's overwrite loop. -/
def last_matching (obs : List RoadObstruction) (eid : String) : Option RoadObstruction :=
  (obs.filter (fun o => o.road_edge_id = eid)).getLast?

/-- Every path in an accepted list passed the source's diversity check,
at the default threshold, against all paths accepted before it. -/
inductive AcceptedOk : List (List String) → Prop
  | nil : AcceptedOk []
  | snoc (acc : List (List String)) (c : List String) :
      AcceptedOk acc →
      is_path_sufficiently_different c acc default_min_difference = true →
      AcceptedOk (acc ++ [c])

/-! ### Live graph state (network_analyzer.py)

The mutable `networkx` graph is modelled as explicit lists of nodes and
undirected edges, mutated by state passing.  `uuid`-generated fresh
names are passed in explicitly.  Euclidean-distance comparisons against
constant tolerances are modelled by comparing squared distances against
the squared tolerance, which is equivalent since both sides are
non-negative. -/

/-- Node attributes (`add_node` keyword data in network_analyzer.py). -/
structure NodeInfo where
  x : ℚ
  y : ℚ
  ntype : String
  is_virtual : Bool
  deriving Repr, DecidableEq

/-- Edge attributes (`add_edge` keyword data in network_analyzer.py);
`travel_time` is only populated on edges created by virtual-node
splicing, as in the source. -/
structure GEdge where
  u : String
  v : String
  edge_id : String
  distance : ℚ
  width : ℚ
  original_width : ℚ
  speed_limit : ℚ
  travel_time : ℚ
  is_access_road : Bool
  deriving Repr, DecidableEq

/-- The analyzer's `road_graph`. -/
structure Graph where
  nodes : List (String × NodeInfo)
  edges : List GEdge
  deriving Repr, DecidableEq

/-- Squared Euclidean distance (the source's `_calculate_distance`
computes `dx*dx + dy*dy` before `sqrt`). -/
def dist_sq (ax ay bx bY : ℚ) : ℚ := (bx - ax) * (bx - ax) + (bY - ay) * (bY - ay)

def Graph.has_node (g : Graph) (nid : String) : Bool :=
  g.nodes.any (fun n => n.1 = nid)

def Graph.node_info (g : Graph) (nid : String) : Option NodeInfo :=
  (g.nodes.find? (fun n => n.1 = nid)).map Prod.snd

def Graph.add_node (g : Graph) (nid : String) (info : NodeInfo) : Graph :=
  { g with nodes := g.nodes ++ [(nid, info)] }

/-- An undirected edge record joins `a` and `b` in either orientation. -/
def edge_connects (e : GEdge) (a b : String) : Bool :=
  (e.u = a && e.v = b) || (e.u = b && e.v = a)

def Graph.has_edge (g : Graph) (a b : String) : Bool :=
  g.edges.any (fun e => edge_connects e a b)

def Graph.remove_edge (g : Graph) (a b : String) : Graph :=
  { g with edges := g.edges.filter (fun e => !(edge_connects e a b)) }

def Graph.add_edge (g : Graph) (e : GEdge) : Graph :=
  { g with edges := g.edges ++ [e] }

/-- `networkx.Graph.remove_node` also drops all incident edges. -/
def Graph.remove_node (g : Graph) (nid : String) : Graph :=
  { nodes := g.nodes.filter (fun n => !(n.1 = nid)),
    edges := g.edges.filter (fun e => !(e.u = nid || e.v = nid)) }

def Graph.neighbors (g : Graph) (nid : String) : List String :=
  g.edges.filterMap (fun e =>
    if e.u = nid then some e.v else if e.v = nid then some e.u else none)

def Graph.find_edge (g : Graph) (a b : String) : Option GEdge :=
  g.edges.find? (fun e => edge_connects e a b)

/-- The `road_info` dictionary produced by `_find_closest_road_point`. -/
structure RoadInfo where
  from_node : String
  to_node : String
  closest_x : ℚ
  closest_y : ℚ
  distance_to_road : ℚ
  position_on_edge : ℚ
  edge : GEdge
  deriving Repr, DecidableEq

/-- `_create_virtual_node_on_road` (network_analyzer.py, lines 431–577):
adds the virtual node at the projected point, snaps to an existing
endpoint when within the 10 m tolerance (note: the already-added virtual
node is left behind in that case, as in the source), otherwise removes
the original edge, adds the two split halves `…_part1`/`…_part2`, and —
when the query point is more than 0.1 m from the road — adds an access
node at the query point plus a walking-speed access edge, returning the
access node's id. -/
def create_virtual_node_on_road (g : Graph) (px py : ℚ) (ri : RoadInfo)
    (virtual_id access_id access_eid : String) : Graph × String :=
  let g1 := g.add_node virtual_id
    { x := ri.closest_x, y := ri.closest_y, ntype := "virtual", is_virtual := true }
  match g1.node_info ri.from_node, g1.node_info ri.to_node with
  | some fi, some ti =>
      if dist_sq ri.closest_x ri.closest_y fi.x fi.y < 100 then (g1, ri.from_node)
      else if dist_sq ri.closest_x ri.closest_y ti.x ti.y < 100 then (g1, ri.to_node)
      else
        let original_distance := ri.edge.distance
        let distance_to_virtual := original_distance * ri.position_on_edge
        let distance_from_virtual := original_distance * (1 - ri.position_on_edge)
        let g2 := if g1.has_edge ri.from_node ri.to_node
                  then g1.remove_edge ri.from_node ri.to_node else g1
        let g3 := g2.add_edge
          { u := ri.from_node, v := virtual_id, edge_id := ri.edge.edge_id ++ "_part1",
            distance := distance_to_virtual, width := ri.edge.width,
            original_width := ri.edge.original_width, speed_limit := ri.edge.speed_limit,
            travel_time := distance_to_virtual / 1000 / (ri.edge.speed_limit / 3600),
            is_access_road := false }
        let g4 := g3.add_edge
          { u := virtual_id, v := ri.to_node, edge_id := ri.edge.edge_id ++ "_part2",
            distance := distance_from_virtual, width := ri.edge.width,
            original_width := ri.edge.original_width, speed_limit := ri.edge.speed_limit,
            travel_time := distance_from_virtual / 1000 / (ri.edge.speed_limit / 3600),
            is_access_road := false }
        if 1/10 < ri.distance_to_road then
          let g5 := g4.add_node access_id
            { x := px, y := py, ntype := "access", is_virtual := true }
          let g6 := g5.add_edge
            { u := access_id, v := virtual_id, edge_id := access_eid,
              distance := ri.distance_to_road, width := 10, original_width := 10,
              speed_limit := 5, travel_time := ri.distance_to_road / 1000 / (5 / 3600),
              is_access_road := true }
          (g6, access_id)
        else (g4, virtual_id)
  | _, _ => (g1, virtual_id)

/-- The split-half edge-id suffixes stripped on restore. -/
def part1_suffix : String := "_part1"

/-- Second split-half suffix. -/
def part2_suffix : String := "_part2"

/-- The empty replacement string of the suffix strip. -/
def no_suffix : String := ""

/-- Replace every occurrence of `pat` in a character list by `repl`
(left-to-right, non-overlapping): the semantics of Python's
`str.replace` used on the split edge ids; the fuel argument (the input
length) keeps the recursion structural. -/
def replace_chars (pat repl : List Char) : ℕ → List Char → List Char
  | 0, s => s
  | _ + 1, [] => []
  | fuel + 1, c :: rest =>
      if pat.isPrefixOf (c :: rest) ∧ pat ≠ [] then
        repl ++ replace_chars pat repl fuel ((c :: rest).drop pat.length)
      else c :: replace_chars pat repl fuel rest

/-- `str.replace(pattern, replacement)` over the id strings. -/
def string_replace (s pattern replacement : String) : String :=
  String.mk (replace_chars pattern.data replacement.data s.data.length s.data)

/-- The restored edge built by `_cleanup_virtual_nodes` when it re-merges
two split halves. -/
def combined_edge (n1 n2 : String) (e1 e2 : GEdge) : GEdge :=
  { u := n1, v := n2,
    edge_id := string_replace (string_replace e1.edge_id part1_suffix no_suffix)
      part2_suffix no_suffix,
    distance := e1.distance + e2.distance,
    width := e1.width, original_width := e1.original_width,
    speed_limit := e1.speed_limit,
    travel_time := e1.travel_time + e2.travel_time,
    is_access_road := false }

/-- One iteration of `_cleanup_virtual_nodes` (network_analyzer.py,
lines 853–913): a listed node of type `virtual`/`access` is removed;
when it is a `virtual` node with exactly two neighbors joined by two
non-access road halves, the original edge is restored first. -/
def cleanup_one (g : Graph) (nid : String) : Graph :=
  if g.has_node nid then
    match g.node_info nid with
    | some info =>
        if info.ntype = "virtual" ∨ info.ntype = "access" then
          let g' :=
            match g.neighbors nid, decide (info.ntype = "virtual") with
            | [n1, n2], true =>
                match g.find_edge nid n1, g.find_edge nid n2 with
                | some e1, some e2 =>
                    if ¬ e1.is_access_road ∧ ¬ e2.is_access_road then
                      ((g.remove_edge nid n1).remove_edge nid n2).add_edge
                        (combined_edge n1 n2 e1 e2)
                    else g
                | _, _ => g
            | _, _ => g
          g'.remove_node nid
        else g
    | none => g
  else g

/-- `_cleanup_virtual_nodes` over the list passed by `find_path`. -/
def cleanup_virtual_nodes (g : Graph) (ids : List String) : Graph :=
  ids.foldl cleanup_one g

/-- The base graph of the cleanup scenario: one road edge `edge_1` of
100 m between intersections `n1 = (0,0)` and `n2 = (100,0)`. -/
def demo_edge : GEdge :=
  { u := "n1", v := "n2", edge_id := "edge_1", distance := 100, width := 6,
    original_width := 6, speed_limit := 40, travel_time := 0, is_access_road := false }

/-- Two intersection nodes and the single road edge. -/
def demo_graph : Graph :=
  { nodes := [("n1", { x := 0, y := 0, ntype := "intersection", is_virtual := false }),
              ("n2", { x := 100, y := 0, ntype := "intersection", is_virtual := false })],
    edges := [demo_edge] }

/-- `_find_closest_road_point` output for the query point (50, 20): the
projection onto `edge_1` is (50, 0), 20 m away, at offset ratio 0.5. -/
def demo_road_info : RoadInfo :=
  { from_node := "n1", to_node := "n2", closest_x := 50, closest_y := 0,
    distance_to_road := 20, position_on_edge := 1/2, edge := demo_edge }

/-- The graph and attached node after `_create_virtual_node_on_road` for
the query point (50, 20) (fresh ids made explicit). -/
def demo_query_result : Graph × String :=
  create_virtual_node_on_road demo_graph 50 20 demo_road_info
    "start_virtual" "start_access" "access_edge_1"

/-- The graph after `find_path`'s cleanup call, which passes exactly the
returned attachment node (here the access node). -/
def demo_after_cleanup : Graph :=
  cleanup_virtual_nodes demo_query_result.1 [demo_query_result.2]

/-- The expected state of the graph right after attachment: the original
edge replaced by its two 50 m halves meeting at the virtual node, plus
the 20 m walking-speed access edge from the access node at the query
point. -/
def demo_split_graph : Graph :=
  { nodes := [("n1", { x := 0, y := 0, ntype := "intersection", is_virtual := false }),
              ("n2", { x := 100, y := 0, ntype := "intersection", is_virtual := false }),
              ("start_virtual", { x := 50, y := 0, ntype := "virtual", is_virtual := true }),
              ("start_access", { x := 50, y := 20, ntype := "access", is_virtual := true })],
    edges := [
      { u := "n1", v := "start_virtual", edge_id := "edge_1_part1", distance := 50,
        width := 6, original_width := 6, speed_limit := 40, travel_time := 9/2,
        is_access_road := false },
      { u := "start_virtual", v := "n2", edge_id := "edge_1_part2", distance := 50,
        width := 6, original_width := 6, speed_limit := 40, travel_time := 9/2,
        is_access_road := false },
      { u := "start_access", v := "start_virtual", edge_id := "access_edge_1", distance := 20,
        width := 10, original_width := 10, speed_limit := 5, travel_time := 72/5,
        is_access_road := true }] }

/-- `_reconstruct_path` (network_analyzer.py, lines 1822–1840): walk the
`previous` map back from the end node, building the path front-to-back.
The Dijkstra `previous` map is acyclic, so a fuel bound models the
`while` loop. -/
def reconstruct_path (previous : List (String × Option String)) : ℕ → String → List String
  | 0, current => [current]
  | fuel + 1, current =>
      match (previous.find? (fun pr => pr.1 = current)).map Prod.snd with
      | some (some prev) => reconstruct_path previous fuel prev ++ [current]
      | _ => [current]

/-- The reason strings returned by `_find_partial_path`. -/
inductive FallbackReason
  | start_is_destination
  | complete_path_found
  | closest_reachable
  | no_reachable_nodes
  deriving Repr, DecidableEq

/-- The return structure of `_find_partial_path` (network_analyzer.py,
lines 1697–1820), with the Dijkstra exploration abstracted into its
observable outcome: the `previous` map it built, whether the end node
was reached, and the visited node closest to the destination.  Every
branch of the source returns a non-empty node list, which is the
property `find_path` relies on. -/
def find_fallback_path (previous : List (String × Option String)) (fuel : ℕ)
    (start_node end_node closest : String) (reached_end : Bool) :
    List String × FallbackReason :=
  if start_node = end_node then ([start_node], FallbackReason.start_is_destination)
  else if reached_end then
    (reconstruct_path previous fuel end_node, FallbackReason.complete_path_found)
  else if closest ≠ start_node then
    (reconstruct_path previous fuel closest, FallbackReason.closest_reachable)
  else ([start_node], FallbackReason.no_reachable_nodes)

/-- The three observable shapes of a `PathfindingResult` from
`find_path`: a complete path (`success=True`), a degraded result
(`success=False` with a non-empty partial node list), or the empty
unrecoverable failure (`success=False`, no nodes). -/
inductive PathOutcome
  | success (nodes : List String)
  | degraded (nodes : List String)
  | failure
  deriving Repr, DecidableEq

/-- The result dispatch of `find_path` (network_analyzer.py, lines
171–242): when A* yields no nodes, fall back to `_find_partial_path`;
only an empty fallback node list produces the bare failure result. -/
def find_path_outcome (astar_nodes fallback_nodes : List String) : PathOutcome :=
  if astar_nodes = [] then
    if fallback_nodes = [] then PathOutcome.failure
    else PathOutcome.degraded fallback_nodes
  else PathOutcome.success astar_nodes

/-- The nearest-real-node scan of `_create_forced_connection_to_end`
(network_analyzer.py, lines 703–720): virtual and forced temporary nodes
are skipped; strictly closer nodes replace the candidate (squared
distances compare like distances).  Returns the node id and its squared
distance. -/
def nearest_real_node (g : Graph) (px py : ℚ) : Option (String × ℚ) :=
  g.nodes.foldl
    (fun best n =>
      if n.2.is_virtual || n.2.ntype = "forced_access" || n.2.ntype = "forced_standalone" then
        best
      else
        let dsq := dist_sq px py n.2.x n.2.y
        match best with
        | none => some (n.1, dsq)
        | some b => if dsq < b.2 then some (n.1, dsq) else best)
    none

/-- `_create_forced_connection_to_end` (network_analyzer.py, lines
690–770): with no real node available, a standalone end node; otherwise
an `end_forced` node at the exact end point joined to the nearest real
node by a single walking-speed (5 km/h) access edge, however long.
`min_dist` is the Euclidean distance to that node (the source's
`min_distance`, a square root, supplied here as data). -/
def create_forced_connection_to_end (g : Graph) (ex ey min_dist : ℚ)
    (end_id forced_eid : String) : Graph × String :=
  match nearest_real_node g ex ey with
  | none =>
      (g.add_node end_id { x := ex, y := ey, ntype := "end_standalone", is_virtual := true },
       end_id)
  | some best =>
      let g1 := g.add_node end_id
        { x := ex, y := ey, ntype := "end_forced", is_virtual := true }
      let connection_time := if 0 < min_dist then min_dist / 1000 / (5 / 3600) else 1/10
      let g2 := g1.add_edge
        { u := best.1, v := end_id, edge_id := forced_eid,
          distance := min_dist, width := 10, original_width := 10,
          speed_limit := 5, travel_time := connection_time, is_access_road := true }
      (g2, end_id)

/-! ## Theorems -/

theorem reset_set_width_first (es : List RoadEdge) (eid : String) (w : ℚ) :
    reset_edges (set_width_first es eid w) = reset_edges es := by
  induction es with
  | nil => rfl
  | cons e rest ih =>
      by_cases h : e.edge_id = eid <;> simp [set_width_first, reset_edges, h] <;>
        simpa [reset_edges] using ih

theorem reset_apply_obstruction_list (obs : List RoadObstruction) :
    ∀ es : List RoadEdge, reset_edges (apply_obstruction_list es obs) = reset_edges es := by
  induction obs with
  | nil => intro es; rfl
  | cons o obs ih =>
      intro es
      have h1 : apply_obstruction_list es (o :: obs) =
          apply_obstruction_list (set_width_first es o.road_edge_id o.remaining_width) obs := rfl
      rw [h1, ih, reset_set_width_first]

theorem reset_reset (es : List RoadEdge) : reset_edges (reset_edges es) = reset_edges es := by
  induction es with
  | nil => rfl
  | cons e rest ih => simpa [reset_edges] using ih

/-- C4: `update_obstructions` first restores every edge's width to its
original width and then applies the new set, so (a) the empty list
leaves every edge with `current_width = original_width`, and (b) the
final widths depend only on the obstruction list passed in — applying
any previous set first changes nothing, and in particular applying the
same list twice gives the same graph as applying it once. -/
theorem c4_reset_then_apply :
    (∀ es : List RoadEdge,
      (update_obstructions es []).map (fun e => e.width) =
        es.map (fun e => e.original_width)) ∧
    (∀ (es : List RoadEdge) (obs' obs : List RoadObstruction),
      update_obstructions (update_obstructions es obs') obs = update_obstructions es obs) := by
  constructor
  · intro es
    simp [update_obstructions, apply_obstruction_list, reset_edges, List.map_map]
  · intro es obs' obs
    show apply_obstruction_list (reset_edges (apply_obstruction_list (reset_edges es) obs')) obs =
      apply_obstruction_list (reset_edges es) obs
    rw [reset_apply_obstruction_list, reset_reset]

theorem edge_ids_set_width_first (es : List RoadEdge) (eid : String) (w : ℚ) :
    edge_ids (set_width_first es eid w) = edge_ids es := by
  induction es with
  | nil => rfl
  | cons e rest ih =>
      by_cases h : e.edge_id = eid <;> simp [set_width_first, edge_ids, h] <;>
        simpa [edge_ids] using ih

theorem set_width_first_eq_map (es : List RoadEdge) (eid : String) (w : ℚ)
    (h : (edge_ids es).Nodup) :
    set_width_first es eid w =
      es.map (fun e => if e.edge_id = eid then { e with width := w } else e) := by
  induction es with
  | nil => rfl
  | cons e rest ih =>
      simp only [edge_ids, List.map_cons, List.nodup_cons] at h
      obtain ⟨hnot, hrest⟩ := h
      by_cases he : e.edge_id = eid
      · have hmap : rest.map (fun x => if x.edge_id = eid then { x with width := w } else x) =
            rest := by
          conv_rhs => rw [← List.map_id rest]
          apply List.map_congr_left
          intro x hx
          have hne : ¬ x.edge_id = eid := by
            intro hx2
            apply hnot
            have : e.edge_id = x.edge_id := by rw [he, hx2]
            rw [this]
            exact List.mem_map_of_mem _ hx
          simp [hne]
        simp [set_width_first, he, hmap]
      · simp [set_width_first, he, ih hrest]

theorem apply_obstruction_list_eq_map (obs : List RoadObstruction) :
    ∀ es : List RoadEdge, (edge_ids es).Nodup →
      apply_obstruction_list es obs =
        es.map (fun e => { e with width := fold_width obs e.edge_id e.width }) := by
  induction obs with
  | nil =>
      intro es _
      simp [apply_obstruction_list, fold_width]
  | cons o obs ih =>
      intro es h
      have hstep : apply_obstruction_list es (o :: obs) =
          apply_obstruction_list (set_width_first es o.road_edge_id o.remaining_width) obs := rfl
      have hnd : (edge_ids (set_width_first es o.road_edge_id o.remaining_width)).Nodup := by
        rw [edge_ids_set_width_first]; exact h
      rw [hstep, ih _ hnd, set_width_first_eq_map es _ _ h, List.map_map]
      apply List.map_congr_left
      intro e _
      by_cases hc : e.edge_id = o.road_edge_id
      · simp [Function.comp, hc, fold_width]
      · have hc' : ¬ o.road_edge_id = e.edge_id := fun hx => hc hx.symm
        simp [Function.comp, hc, hc', fold_width]

theorem fold_width_eq_last_matching (obs : List RoadObstruction) (eid : String) (w0 : ℚ) :
    fold_width obs eid w0 =
      (last_matching obs eid).elim w0 (fun o => o.remaining_width) := by
  induction obs using List.reverseRecOn with
  | nil => simp [fold_width, last_matching]
  | append_singleton l o ih =>
      by_cases h : o.road_edge_id = eid
      · simp [fold_width, last_matching, List.foldl_append, List.filter_append, h]
      · simp [fold_width, last_matching, List.foldl_append, List.filter_append, h] at ih ⊢
        exact ih

/-- C3 counterexample: two obstructions targeting the same edge `e1`
(remaining widths 2 then 4).  The source records the width of the *last*
obstruction in list order (4, and 2 when the order is reversed), not the
minimum 2 regardless of order as the claim states. -/
theorem c3_counterexample :
    (update_obstructions [⟨"e1", 100, 6, 6, 40⟩]
        [⟨"o1", "e1", 2, 60⟩, ⟨"o2", "e1", 4, 30⟩]).map (fun e => e.width) = [4] ∧
    (update_obstructions [⟨"e1", 100, 6, 6, 40⟩]
        [⟨"o2", "e1", 4, 30⟩, ⟨"o1", "e1", 2, 60⟩]).map (fun e => e.width) = [2] ∧
    min (2 : ℚ) 4 = 2 ∧ (4 : ℚ) ≠ 2 := by
  refine ⟨rfl, rfl, ?_, ?_⟩ <;> norm_num

/-- C3 amended: when several obstructions in the list target the same
edge, the edge's resulting current width is the remaining width of the
*last* matching obstruction in list order (last write wins), not the
minimum; an edge with no matching obstruction keeps its original width.
Stated for graphs with distinct edge ids. -/
theorem c3_amended_last_write_wins (es : List RoadEdge) (obs : List RoadObstruction)
    (h : (edge_ids es).Nodup) :
    update_obstructions es obs =
      es.map (fun e =>
        { e with width := ((last_matching obs e.edge_id).elim e.original_width
            (fun o => o.remaining_width)) }) := by
  have hnd : (edge_ids (reset_edges es)).Nodup := by
    have : edge_ids (reset_edges es) = edge_ids es := by
      simp [edge_ids, reset_edges, List.map_map, Function.comp]
    rw [this]; exact h
  show apply_obstruction_list (reset_edges es) obs = _
  rw [apply_obstruction_list_eq_map obs _ hnd]
  simp only [reset_edges, List.map_map]
  apply List.map_congr_left
  intro e _
  simp [Function.comp, fold_width_eq_last_matching]

/-- Witness for the amended C3 theorem at a concrete graph and
obstruction pair: the surviving width is the last one (4). -/
theorem c3_amended_witness :
    update_obstructions [⟨"e1", 100, 6, 6, 40⟩]
        [⟨"o1", "e1", 2, 60⟩, ⟨"o2", "e1", 4, 30⟩] = [⟨"e1", 100, 4, 6, 40⟩] := by
  have h := c3_amended_last_write_wins [⟨"e1", 100, 6, 6, 40⟩]
    [⟨"o1", "e1", 2, 60⟩, ⟨"o2", "e1", 4, 30⟩] (by simp [edge_ids])
  simpa [last_matching] using h

theorem mem_set_width_first {x : RoadEdge} {es : List RoadEdge} {eid : String} {w : ℚ}
    (hx : x ∈ set_width_first es eid w) :
    x ∈ es ∨ ∃ e ∈ es, e.edge_id = eid ∧ x = { e with width := w } := by
  induction es with
  | nil => simp [set_width_first] at hx
  | cons e rest ih =>
      by_cases h : e.edge_id = eid
      · simp only [set_width_first, if_pos h, List.mem_cons] at hx
        rcases hx with hx | hx
        · exact Or.inr ⟨e, List.mem_cons_self e rest, h, hx⟩
        · exact Or.inl (List.mem_cons_of_mem e hx)
      · simp only [set_width_first, if_neg h, List.mem_cons] at hx
        rcases hx with hx | hx
        · exact Or.inl (by simp [hx])
        · rcases ih hx with h1 | ⟨e0, he0, hid, hxe⟩
          · exact Or.inl (List.mem_cons_of_mem e h1)
          · exact Or.inr ⟨e0, List.mem_cons_of_mem e he0, hid, hxe⟩

theorem apply_obstruction_list_bounds (obs : List RoadObstruction) :
    ∀ cur : List RoadEdge,
      (∀ e ∈ cur, 0 ≤ e.width ∧ e.width ≤ e.original_width) →
      (∀ o ∈ obs, ∀ e ∈ cur, e.edge_id = o.road_edge_id →
        0 ≤ o.remaining_width ∧ o.remaining_width ≤ e.original_width) →
      ∀ e ∈ apply_obstruction_list cur obs, 0 ≤ e.width ∧ e.width ≤ e.original_width := by
  induction obs with
  | nil => intro cur h _ e he; exact h e he
  | cons o obs ih =>
      intro cur h hobs e he
      have hstep : apply_obstruction_list cur (o :: obs) =
          apply_obstruction_list (set_width_first cur o.road_edge_id o.remaining_width) obs := rfl
      rw [hstep] at he
      refine ih _ ?_ ?_ e he
      · intro x hx
        rcases mem_set_width_first hx with hx1 | ⟨e0, he0, hid, hxe⟩
        · exact h x hx1
        · have := hobs o (List.mem_cons_self o obs) e0 he0 hid
          constructor
          · rw [hxe]; exact this.1
          · rw [hxe]; exact this.2
      · intro o' ho' x hx hid'
        rcases mem_set_width_first hx with hx1 | ⟨e0, he0, hid, hxe⟩
        · exact hobs o' (List.mem_cons_of_mem o ho') x hx1 hid'
        · have hxid : e0.edge_id = o'.road_edge_id := by
            have : x.edge_id = e0.edge_id := by rw [hxe]
            rw [← this]; exact hid'
          have := hobs o' (List.mem_cons_of_mem o ho') e0 he0 hxid
          constructor
          · exact this.1
          · have horig : x.original_width = e0.original_width := by rw [hxe]
            rw [horig]; exact this.2

/-- C5 counterexample: an obstruction whose `remaining_width` (10) has
the non-negativity the claim demands but exceeds the target edge's
original width (6) is written through unchecked, leaving
`current_width = 10 > original_width = 6` after the update. -/
theorem c5_counterexample :
    (update_obstructions [⟨"e1", 100, 6, 6, 40⟩] [⟨"o1", "e1", 10, 0⟩]).map
        (fun e => e.width) = [10] ∧
    (0 : ℚ) ≤ 10 ∧ ¬ (10 : ℚ) ≤ 6 := by
  refine ⟨rfl, ?_, ?_⟩ <;> norm_num

/-- C5 amended: after `update_obstructions`, every edge satisfies
`0 ≤ current_width ≤ original_width` provided every obstruction's
remaining width is non-negative *and does not exceed the original width
of any edge it targets* (the source writes the value through unchecked,
so the upper bound needs this extra hypothesis, which the simulator's own
obstructions satisfy); edge original widths are assumed non-negative. -/
theorem c5_amended_width_bounds (es : List RoadEdge) (obs : List RoadObstruction)
    (horig : ∀ e ∈ es, 0 ≤ e.original_width)
    (hnn : ∀ o ∈ obs, 0 ≤ o.remaining_width)
    (hle : ∀ o ∈ obs, ∀ e ∈ es, e.edge_id = o.road_edge_id →
      o.remaining_width ≤ e.original_width) :
    ∀ e ∈ update_obstructions es obs, 0 ≤ e.width ∧ e.width ≤ e.original_width := by
  intro e he
  refine apply_obstruction_list_bounds obs (reset_edges es) ?_ ?_ e he
  · intro x hx
    simp only [reset_edges, List.mem_map] at hx
    obtain ⟨e0, he0, hxe⟩ := hx
    constructor
    · rw [← hxe]; exact horig e0 he0
    · rw [← hxe]
  · intro o ho x hx hid
    simp only [reset_edges, List.mem_map] at hx
    obtain ⟨e0, he0, hxe⟩ := hx
    have hid0 : e0.edge_id = o.road_edge_id := by
      have : x.edge_id = e0.edge_id := by rw [← hxe]
      rw [← this]; exact hid
    constructor
    · exact hnn o ho
    · have : x.original_width = e0.original_width := by rw [← hxe]
      rw [this]; exact hle o ho e0 he0 hid0

/-- Witness for the amended C5 theorem: a well-formed obstruction
(remaining 2 on an edge of original width 6) keeps the updated width
within the bounds. -/
theorem c5_amended_witness :
    (0 : ℚ) ≤ (⟨"e1", 100, 2, 6, 40⟩ : RoadEdge).width ∧
    (⟨"e1", 100, 2, 6, 40⟩ : RoadEdge).width ≤
      (⟨"e1", 100, 2, 6, 40⟩ : RoadEdge).original_width := by
  have h := c5_amended_width_bounds [⟨"e1", 100, 6, 6, 40⟩] [⟨"o1", "e1", 2, 60⟩]
    (by intro e he; simp at he; rw [he]; norm_num)
    (by intro o ho; simp at ho; rw [ho]; norm_num)
    (by intro o ho e he _; simp at ho he; rw [ho, he]; norm_num)
  refine h ⟨"e1", 100, 2, 6, 40⟩ ?_
  rw [show update_obstructions [⟨"e1", 100, 6, 6, 40⟩] [⟨"o1", "e1", 2, 60⟩] =
    [⟨"e1", 100, 2, 6, 40⟩] from rfl]
  simp

theorem set_width_first_no_match (es : List RoadEdge) (eid : String) (w : ℚ)
    (h : ∀ e ∈ es, ¬ e.edge_id = eid) : set_width_first es eid w = es := by
  induction es with
  | nil => rfl
  | cons e rest ih =>
      have he : ¬ e.edge_id = eid := h e (List.mem_cons_self e rest)
      simp only [set_width_first, if_neg he]
      rw [ih (fun x hx => h x (List.mem_cons_of_mem e hx))]

theorem matches_some_edge_set_width_first (es : List RoadEdge) (eid : String) (w : ℚ)
    (o : RoadObstruction) :
    matches_some_edge (set_width_first es eid w) o = matches_some_edge es o := by
  induction es with
  | nil => rfl
  | cons e rest ih =>
      by_cases h : e.edge_id = eid <;>
        simp [set_width_first, matches_some_edge, h] <;>
        simpa [matches_some_edge] using congrArg (fun b => (e.edge_id = o.road_edge_id : Bool) || b) ih

theorem apply_obstruction_list_filter (obs : List RoadObstruction) :
    ∀ es : List RoadEdge,
      apply_obstruction_list es (obs.filter (fun o => matches_some_edge es o)) =
        apply_obstruction_list es obs := by
  induction obs with
  | nil => intro es; rfl
  | cons o obs ih =>
      intro es
      by_cases hm : matches_some_edge es o
      · have hfil : (o :: obs).filter (fun o => matches_some_edge es o) =
            o :: obs.filter (fun o => matches_some_edge es o) := by
          simp [List.filter_cons, hm]
        rw [hfil]
        have hstep : ∀ rest, apply_obstruction_list es (o :: rest) =
            apply_obstruction_list (set_width_first es o.road_edge_id o.remaining_width) rest :=
          fun rest => rfl
        rw [hstep, hstep]
        have hpred : obs.filter (fun o' => matches_some_edge es o') =
            obs.filter (fun o' =>
              matches_some_edge (set_width_first es o.road_edge_id o.remaining_width) o') := by
          apply List.filter_congr
          intro o' _
          rw [matches_some_edge_set_width_first]
        rw [hpred, ih]
      · have hfil : (o :: obs).filter (fun o => matches_some_edge es o) =
            obs.filter (fun o => matches_some_edge es o) := by
          simp [List.filter_cons, hm]
        have hnm : ∀ e ∈ es, ¬ e.edge_id = o.road_edge_id := by
          intro e he hid
          apply hm
          simp only [matches_some_edge, List.any_eq_true]
          exact ⟨e, he, by simp [hid]⟩
        have hstep : apply_obstruction_list es (o :: obs) =
            apply_obstruction_list (set_width_first es o.road_edge_id o.remaining_width) obs := rfl
        rw [hfil, hstep, set_width_first_no_match es _ _ hnm, ih]

/-- C10: obstructions whose `road_edge_id` matches no edge in the graph
are skipped (the source only prints a warning), so the updated widths
are exactly those produced by the matching obstructions alone: filtering
the unmatched obstructions out of the list leaves the result unchanged. -/
theorem c10_unmatched_obstructions_skipped (es : List RoadEdge) (obs : List RoadObstruction) :
    update_obstructions es (obs.filter (fun o => matches_some_edge es o)) =
      update_obstructions es obs := by
  show apply_obstruction_list (reset_edges es) _ = apply_obstruction_list (reset_edges es) obs
  have hpred : obs.filter (fun o => matches_some_edge es o) =
      obs.filter (fun o => matches_some_edge (reset_edges es) o) := by
    apply List.filter_congr
    intro o _
    have : matches_some_edge (reset_edges es) o = matches_some_edge es o := by
      simp only [matches_some_edge, reset_edges, List.any_map]
      congr 1
    rw [this]
  rw [hpred, apply_obstruction_list_filter]

/-- C2: the traversal cost of `_calculate_edge_cost` equals the claim's
formula — distance over min(speed limit, vehicle max speed) converted to
seconds, times the penalty (ratio < 0.5 → ×3, ratio in [0.5, 0.7) → ×2,
otherwise ×1.3 when the width is under 1.2× the vehicle minimum and ×1
otherwise) — and the cost is infinite (`none`) exactly when
`current_width < minimum_road_width`; in particular a 6 m road reduced
to 2 m is impassable for the ambulance (minimum 3 m). -/
theorem c2_edge_cost_matches_claim :
    (∀ (e : RoadEdge) (v : VehicleConfig), calculate_edge_cost e v = claim_edge_cost e v) ∧
    (∀ (e : RoadEdge) (v : VehicleConfig),
      (calculate_edge_cost e v = none ↔ e.width < v.minimum_road_width)) ∧
    calculate_edge_cost ⟨"road", 100, 2, 6, 40⟩ ambulance_config = none := by
  refine ⟨?_, ?_, ?_⟩
  · intro e v
    unfold calculate_edge_cost claim_edge_cost claim_penalty
    by_cases h1 : e.width < v.minimum_road_width
    · simp [h1]
    · rw [if_neg h1, if_neg h1,
        show (12/10 : ℚ) * v.minimum_road_width = v.minimum_road_width * (12/10) from
          mul_comm _ _]
      by_cases hq1 : e.width / e.original_width < 2⁻¹
      · simp [hq1]
      · by_cases hq2 : e.width / e.original_width < 7/10
        · simp [hq1, hq2, le_of_not_lt hq1]
        · simp [hq1, hq2]
  · intro e v
    unfold calculate_edge_cost
    by_cases h : e.width < v.minimum_road_width <;> simp [h]
  · norm_num [calculate_edge_cost, ambulance_config]

/-- Witness instantiating the C2 theorem at the claim's 6 m / 2 m /
ambulance example. -/
theorem c2_witness :
    calculate_edge_cost ⟨"road", 100, 2, 6, 40⟩ ambulance_config =
      claim_edge_cost ⟨"road", 100, 2, 6, 40⟩ ambulance_config ∧
    (calculate_edge_cost ⟨"road", 100, 2, 6, 40⟩ ambulance_config = none ↔
      (⟨"road", 100, 2, 6, 40⟩ : RoadEdge).width < ambulance_config.minimum_road_width) ∧
    calculate_edge_cost ⟨"road", 100, 2, 6, 40⟩ ambulance_config = none :=
  ⟨c2_edge_cost_matches_claim.1 ⟨"road", 100, 2, 6, 40⟩ ambulance_config,
   c2_edge_cost_matches_claim.2.1 ⟨"road", 100, 2, 6, 40⟩ ambulance_config,
   c2_edge_cost_matches_claim.2.2⟩

/-- C8: for disaster intensity `d ∈ [1, 10]` and the default base rates
(I → 0.8, II → 0.5, III → 0.1) the probability used for the collapse
decision equals `base_rate(v) * (0.5 + 0.5 * min(1, d/10))` — the
source's extra outer `min(1, ·)` clamp never binds at the default
rates — and a level I tree at intensity 10 collapses with probability
0.8, not 1. -/
theorem c8_collapse_probability_formula (v : VulnerabilityLevel) (d : ℚ)
    (h1 : 1 ≤ d) (h2 : d ≤ 10) :
    final_collapse_probability (default_collapse_rate v) d =
      default_collapse_rate v * (1/2 + 1/2 * min 1 (d / 10)) ∧
    final_collapse_probability (default_collapse_rate VulnerabilityLevel.I) 10 = 4/5 ∧
    (4/5 : ℚ) ≠ 1 := by
  refine ⟨?_, ?_, by norm_num⟩
  · unfold final_collapse_probability intensity_multiplier
    have hm1 : min 1 (d / 10) ≤ 1 := min_le_left _ _
    have hm0 : 0 ≤ min 1 (d / 10) := le_min (by norm_num) (by linarith)
    rw [min_eq_right]
    cases v <;> simp only [default_collapse_rate] <;> nlinarith
  · rw [show final_collapse_probability (default_collapse_rate VulnerabilityLevel.I) 10 =
      min 1 (4/5 * (1/2 + 1/2 * min 1 (10/10 : ℚ))) from rfl]
    norm_num

/-- Witness for C8 at the claim's example: level I, intensity 10. -/
theorem c8_witness :
    final_collapse_probability (default_collapse_rate VulnerabilityLevel.I) 10 =
      default_collapse_rate VulnerabilityLevel.I * (1/2 + 1/2 * min 1 ((10 : ℚ) / 10)) ∧
    final_collapse_probability (default_collapse_rate VulnerabilityLevel.I) 10 = 4/5 ∧
    (4/5 : ℚ) ≠ 1 :=
  c8_collapse_probability_formula VulnerabilityLevel.I 10 (by norm_num) (by norm_num)

theorem collect_alternatives_accepted (cands : List (List String)) :
    ∀ acc, AcceptedOk acc → AcceptedOk (collect_alternatives cands acc) := by
  induction cands with
  | nil => intro acc h; exact h
  | cons c rest ih =>
      intro acc h
      simp only [collect_alternatives]
      split_ifs with h1 h2
      · exact h
      · exact ih _ (AcceptedOk.snoc acc c h h2)
      · exact h

/-- C9 counterexample: with accepted path a–b–d, the candidate a–b–c
shares half of its directed edge set (difference fraction 1/2, far below
the 70% the claim asserts), yet the source accepts it: the default
`min_difference_ratio` is 0.3, so only 30% difference is required. -/
theorem c9_counterexample :
    collect_alternatives [["a", "b", "d"], ["a", "b", "c"]] [] =
      [["a", "b", "d"], ["a", "b", "c"]] ∧
    difference_fraction ["a", "b", "c"] ["a", "b", "d"] = 1/2 ∧
    ((1 : ℚ)/2 < 7/10) ∧ default_min_difference = 3/10 := by
  have h1 : (path_edge_set ["a", "b", "c"]).card = 4 := by decide
  have h2 : (path_edge_set ["a", "b", "c"] ∩ path_edge_set ["a", "b", "d"]).card = 2 := by
    decide
  have hfrac : difference_fraction ["a", "b", "c"] ["a", "b", "d"] = 1/2 := by
    rw [difference_fraction, h1, h2]; norm_num
  have hsuff : is_path_sufficiently_different ["a", "b", "c"] [["a", "b", "d"]]
      default_min_difference = true := by
    simp [is_path_sufficiently_different, hfrac, default_min_difference, h1]
    norm_num
  refine ⟨?_, hfrac, by norm_num, rfl⟩
  have h0 : is_path_sufficiently_different ["a", "b", "d"] [] default_min_difference = true :=
    rfl
  simp [collect_alternatives, h0, hsuff]

/-- C9 amended: a candidate path from a successful A* run is accepted
only if, against every previously accepted path, its edge-set difference
fraction is at least the default threshold 0.3 (30% difference, i.e. up
to 70% overlap allowed — not the 70% difference the claim states), and
the search stops at the first empty or insufficiently different
candidate. -/
theorem c9_amended_default_threshold :
    (∀ cands : List (List String), AcceptedOk (collect_alternatives cands [])) ∧
    (∀ (p : List String) (ex : List (List String)) (r : ℚ),
      (is_path_sufficiently_different p ex r = true ↔
        ∀ q ∈ ex, 0 < (path_edge_set p).card → ¬ difference_fraction p q < r)) ∧
    (∀ (c : List String) (rest acc : List (List String)),
      c = [] ∨ is_path_sufficiently_different c acc default_min_difference = false →
      collect_alternatives (c :: rest) acc = acc) := by
  refine ⟨?_, ?_, ?_⟩
  · intro cands
    exact collect_alternatives_accepted cands [] AcceptedOk.nil
  · intro p ex r
    unfold is_path_sufficiently_different
    rw [List.all_eq_true]
    constructor
    · intro h q hq hc hd
      have hb := h q hq
      rw [if_pos hc, if_pos hd] at hb
      exact absurd hb (by simp)
    · intro h q hq
      by_cases hc : 0 < (path_edge_set p).card
      · rw [if_pos hc, if_neg (h q hq hc)]
      · rw [if_neg hc]
  · intro c rest acc h
    simp only [collect_alternatives]
    rcases h with h | h
    · rw [if_pos h]
    · by_cases hc : c = []
      · rw [if_pos hc]
      · rw [if_neg hc, if_neg (by simp [h])]

/-- Witness for the amended C9 theorem: a concrete accepted list passes
the invariant, and an empty candidate stops the search. -/
theorem c9_amended_witness :
    AcceptedOk (collect_alternatives [["a", "b", "d"], ["a", "b", "c"]] []) ∧
    collect_alternatives [[], ["x", "y"]] [] = [] :=
  ⟨c9_amended_default_threshold.1 [["a", "b", "d"], ["a", "b", "c"]],
   c9_amended_default_threshold.2.2 [] [["x", "y"]] [] (Or.inl rfl)⟩

set_option maxHeartbeats 2000000 in
theorem remaining_width_ce : road_intersection_remaining_width tree_ce road_ce = some 3 := by
  norm_num [road_intersection_remaining_width, tree_road_blockage_simple, seg_box_intersects,
    clip_axis, tree_ce, road_ce, sup_eq_max, inf_eq_min, min_def, max_def, abs_of_nonneg,
    abs_of_nonpos]

set_option maxHeartbeats 4000000 in
theorem cross_min_ce : cross_sectional_min_width tree_ce road_ce 6 = 19/4 := by
  norm_num [cross_sectional_min_width, quad_x_bounds, cross_section_remaining_width,
    cross_section_blocked_length, tree_quad_constraints, clip_halfline, interval_length,
    List.range_succ, tree_ce, road_ce, sup_eq_max, inf_eq_min, min_def, max_def]

/-- C1 counterexample: for the tree of `tree_ce` falling obliquely
across the road of `road_ce` (unit direction (-4/5, -3/5), fallen
quadrilateral strictly inside the road rectangle), the source's
`_calculate_road_intersection` records remaining width 3 (trigonometric
projection), while the minimum over the sampled perpendicular
cross-sections — road width at the sample minus the blocked length of
the cross-section line inside the obstruction polygon — is 19/4.  The
recorded value is not the cross-sectional bottleneck minimum: the
sampling routine `_calculate_cross_sectional_width` is never called when
obstructions are produced. -/
theorem c1_counterexample :
    road_intersection_remaining_width tree_ce road_ce = some 3 ∧
    cross_sectional_min_width tree_ce road_ce 6 = 19/4 ∧
    ((3 : ℚ) ≠ 19/4) ∧
    tree_ce.dir_cos * tree_ce.dir_cos + tree_ce.dir_sin * tree_ce.dir_sin = 1 :=
  ⟨remaining_width_ce, cross_min_ce, by norm_num, by norm_num [tree_ce]⟩

/-- C1 amended: the remaining width recorded in a produced
`RoadObstruction` equals road width minus the *trigonometric projection*
occupied width of `_calculate_tree_road_blockage_simple` — the tree
height projected onto the road-perpendicular direction, reduced by the
tree's clearance beyond the road edge and clamped to [0, road width] —
which keeps the value within [0, road width] but is not the sampled
cross-sectional minimum. -/
theorem c1_amended_projection_formula (t : TreeFall) (r : HRoad) (w : ℚ)
    (hw : 0 < r.width)
    (h : road_intersection_remaining_width t r = some w) :
    w = r.width -
      min (max 0 (t.height * |t.dir_sin| - max 0 (|t.base_y - r.y0| - r.width / 2))) r.width ∧
    0 ≤ w ∧ w ≤ r.width := by
  unfold road_intersection_remaining_width at h
  by_cases c1 : |t.base_y - r.y0| > t.height + r.width / 2
  · rw [show tree_road_blockage_simple t r = (0, 0) from by
      simp [tree_road_blockage_simple, c1]] at h
    simp at h
  · by_cases c2 : seg_box_intersects t.base_x t.base_y (t.base_x + t.height * t.dir_cos)
        (t.base_y + t.height * t.dir_sin) r.x1 r.x2 (r.y0 - r.width / 2)
        (r.y0 + r.width / 2) = true
    · have hocc : tree_road_blockage_simple t r =
          (min (max 0 (t.height * |t.dir_sin| - max 0 (|t.base_y - r.y0| - r.width / 2)))
            r.width,
           min 100
             ((min (max 0 (t.height * |t.dir_sin| - max 0 (|t.base_y - r.y0| - r.width / 2)))
               r.width) / r.width * 100)) := by
        simp [tree_road_blockage_simple, c1, c2, hw]
      rw [hocc] at h
      set occ := min
        (max 0 (t.height * |t.dir_sin| - max 0 (|t.base_y - r.y0| - r.width / 2)))
        r.width with hoccdef
      have hocc0 : 0 ≤ occ := le_min (le_max_left 0 _) hw.le
      have hoccw : occ ≤ r.width := min_le_right _ _
      dsimp only [] at h
      split_ifs at h with hcond
      have hw' : w = max 0 (r.width - occ) := by
        have hinj := h
        simp only [Option.some.injEq] at hinj
        exact hinj.symm
      have hmax : max 0 (r.width - occ) = r.width - occ :=
        max_eq_right (by linarith)
      refine ⟨by rw [hw', hmax], ?_, ?_⟩
      · rw [hw', hmax]; linarith
      · rw [hw', hmax]; linarith
    · rw [show tree_road_blockage_simple t r = (0, 0) from by
        simp [tree_road_blockage_simple, c1, c2]] at h
      simp at h

/-- Witness for the amended C1 theorem at the counterexample
configuration: remaining width 3 on the 6 m road. -/
theorem c1_amended_witness :
    (3 : ℚ) = road_ce.width -
      min (max 0 (tree_ce.height * |tree_ce.dir_sin| -
        max 0 (|tree_ce.base_y - road_ce.y0| - road_ce.width / 2))) road_ce.width ∧
    (0 : ℚ) ≤ 3 ∧ (3 : ℚ) ≤ road_ce.width :=
  c1_amended_projection_formula tree_ce road_ce 3 (by norm_num [road_ce]) remaining_width_ce

set_option maxHeartbeats 4000000 in
theorem demo_query_eval : demo_query_result = (demo_split_graph, "start_access") := by
  have hB : (Option.map Prod.snd (List.find? (fun n => decide (n.1 = "n2"))
      [("n1", ({ x := 0, y := 0, ntype := "intersection", is_virtual := false } : NodeInfo)),
        ("n2", { x := 100, y := 0, ntype := "intersection", is_virtual := false }),
        ("start_virtual", { x := 50, y := 0, ntype := "virtual", is_virtual := true })])) =
      some { x := 100, y := 0, ntype := "intersection", is_virtual := false } := rfl
  norm_num [demo_query_result, create_virtual_node_on_road, demo_graph, demo_road_info,
    demo_edge, dist_sq, Graph.add_node, Graph.add_edge, Graph.remove_edge, Graph.remove_node,
    Graph.has_node, Graph.has_edge, Graph.node_info, Graph.neighbors, Graph.find_edge,
    edge_connects, hB, demo_split_graph]
  exact ⟨rfl, rfl⟩

/-- C6 (code bug): for a query point 20 m off the middle of the only
road edge, `_create_virtual_node_on_road` splits the edge at a virtual
node and returns the *access* node, and `find_path` passes only that
returned node to `_cleanup_virtual_nodes`.  Cleanup removes the access
node but leaves the virtual split node and the two half-edges behind:
the graph after the query has three nodes and the split edge ids instead
of the original two nodes and `edge_1`.  Had both the access and the
virtual node been passed, cleanup would have restored the original edge
(last conjunct), which is what its own documentation promises. -/
theorem c6_cleanup_leaves_split_node :
    demo_query_result.2 = "start_access" ∧
    demo_graph.nodes.map Prod.fst = ["n1", "n2"] ∧
    demo_graph.edges.map (fun e => e.edge_id) = ["edge_1"] ∧
    demo_after_cleanup.nodes.map Prod.fst = ["n1", "n2", "start_virtual"] ∧
    demo_after_cleanup.edges.map (fun e => e.edge_id) = ["edge_1_part1", "edge_1_part2"] ∧
    (cleanup_virtual_nodes demo_query_result.1 ["start_access", "start_virtual"]).edges.map
      (fun e => e.edge_id) = ["edge_1"] := by
  refine ⟨?_, rfl, rfl, ?_, ?_, ?_⟩
  · rw [demo_query_eval]
  · rw [demo_after_cleanup, demo_query_eval]; rfl
  · rw [demo_after_cleanup, demo_query_eval]; rfl
  · rw [demo_query_eval]; rfl

theorem reconstruct_path_ne_nil (previous : List (String × Option String)) :
    ∀ (fuel : ℕ) (current : String), reconstruct_path previous fuel current ≠ [] := by
  intro fuel current
  cases fuel with
  | zero => simp [reconstruct_path]
  | succ n =>
      simp only [reconstruct_path]
      split <;> simp

theorem find_fallback_path_ne_nil (previous : List (String × Option String)) (fuel : ℕ)
    (start_node end_node closest : String) (reached_end : Bool) :
    (find_fallback_path previous fuel start_node end_node closest reached_end).1 ≠ [] := by
  unfold find_fallback_path
  split_ifs <;> simp [reconstruct_path_ne_nil]

theorem nearest_real_node_mem (g : Graph) (px py : ℚ) :
    ∀ best, nearest_real_node g px py = some best →
      ∃ info, (best.1, info) ∈ g.nodes ∧ info.is_virtual = false ∧
        info.ntype ≠ "forced_access" ∧ info.ntype ≠ "forced_standalone" := by
  have main : ∀ (l : List (String × NodeInfo)), (∀ x ∈ l, x ∈ g.nodes) →
      ∀ acc : Option (String × ℚ),
      (∀ b, acc = some b → ∃ info, (b.1, info) ∈ g.nodes ∧ info.is_virtual = false ∧
        info.ntype ≠ "forced_access" ∧ info.ntype ≠ "forced_standalone") →
      ∀ b, l.foldl
        (fun best n =>
          if n.2.is_virtual || n.2.ntype = "forced_access" || n.2.ntype = "forced_standalone"
          then best
          else
            let dsq := dist_sq px py n.2.x n.2.y
            match best with
            | none => some (n.1, dsq)
            | some b => if dsq < b.2 then some (n.1, dsq) else best) acc = some b →
        ∃ info, (b.1, info) ∈ g.nodes ∧ info.is_virtual = false ∧
          info.ntype ≠ "forced_access" ∧ info.ntype ≠ "forced_standalone" := by
    intro l
    induction l with
    | nil => intro _ acc hacc b hb; exact hacc b hb
    | cons x rest ih =>
        intro hsub acc hacc b hb
        rw [List.foldl_cons] at hb
        refine ih (fun y hy => hsub y (List.mem_cons_of_mem x hy)) _ ?_ b hb
        intro b' hb'
        by_cases hskip : (x.2.is_virtual || x.2.ntype = "forced_access" ||
            x.2.ntype = "forced_standalone") = true
        · rw [if_pos hskip] at hb'
          exact hacc b' hb'
        · rw [if_neg hskip] at hb'
          simp only [Bool.or_eq_true, decide_eq_true_eq, not_or] at hskip
          obtain ⟨⟨hv, hfa⟩, hfs⟩ := hskip
          have hxmem : x ∈ g.nodes := hsub x (List.mem_cons_self x rest)
          cases acc with
          | none =>
              dsimp only [] at hb'
              simp only [Option.some.injEq] at hb'
              refine ⟨x.2, ?_, by simpa using hv, hfa, hfs⟩
              rw [← hb']
              simpa using hxmem
          | some b0 =>
              dsimp only [] at hb'
              by_cases hd : dist_sq px py x.2.x x.2.y < b0.2
              · rw [if_pos hd] at hb'
                simp only [Option.some.injEq] at hb'
                refine ⟨x.2, ?_, by simpa using hv, hfa, hfs⟩
                rw [← hb']
                simpa using hxmem
              · rw [if_neg hd] at hb'
                exact hacc b' hb'
  intro best hbest
  exact main g.nodes (fun x hx => hx) none (by intro b hb; cases hb) best hbest

/-- C7: on a non-empty initialized graph the result dispatch of
`find_path` cannot produce the bare unrecoverable failure: the fallback
of `_find_partial_path` returns a non-empty node list in every branch,
so the outcome is either a complete path (`success=True`) or the
degraded `success=False` result carrying the partial node list; and when
the end point attaches to no edge, `_create_forced_connection_to_end`
adds a single walking-speed (5 km/h) access edge from the nearest real
(non-virtual, non-forced) node of the graph to a new node at the exact
end point, so some route can always be produced. -/
theorem c7_find_path_never_fails :
    (∀ (previous : List (String × Option String)) (fuel : ℕ)
        (start_node end_node closest : String) (reached_end : Bool),
      (find_fallback_path previous fuel start_node end_node closest reached_end).1 ≠ []) ∧
    (∀ (astar_nodes : List String) (previous : List (String × Option String)) (fuel : ℕ)
        (start_node end_node closest : String) (reached_end : Bool),
      find_path_outcome astar_nodes
        (find_fallback_path previous fuel start_node end_node closest reached_end).1 ≠
        PathOutcome.failure) ∧
    (∀ (g : Graph) (ex ey min_dist : ℚ) (end_id forced_eid : String) (best : String × ℚ),
      nearest_real_node g ex ey = some best →
      create_forced_connection_to_end g ex ey min_dist end_id forced_eid =
        ({ nodes := g.nodes ++
             [(end_id, { x := ex, y := ey, ntype := "end_forced", is_virtual := true })],
           edges := g.edges ++
             [{ u := best.1, v := end_id, edge_id := forced_eid, distance := min_dist,
                width := 10, original_width := 10, speed_limit := 5,
                travel_time := (if 0 < min_dist then min_dist / 1000 / (5 / 3600) else 1/10),
                is_access_road := true }] }, end_id) ∧
      ∃ info, (best.1, info) ∈ g.nodes ∧ info.is_virtual = false ∧
        info.ntype ≠ "forced_access" ∧ info.ntype ≠ "forced_standalone") := by
  refine ⟨find_fallback_path_ne_nil, ?_, ?_⟩
  · intro astar_nodes previous fuel s e c b
    unfold find_path_outcome
    split_ifs with h1 h2
    · exact absurd h2 (find_fallback_path_ne_nil previous fuel s e c b)
    · simp
    · simp
  · intro g ex ey min_dist end_id forced_eid best hbest
    constructor
    · simp [create_forced_connection_to_end, hbest, Graph.add_node, Graph.add_edge]
    · exact nearest_real_node_mem g ex ey best hbest

/-- Witness for C7 at concrete inputs: a no-progress exploration still
yields the non-empty fallback path `["s"]`, the outcome is the degraded
result rather than failure, and the forced end connection on the demo
graph attaches the far-away point (50, 300) to `n1` by a walking-speed
access edge. -/
theorem c7_witness :
    (find_fallback_path [] 3 "s" "e" "s" false).1 ≠ [] ∧
    find_path_outcome [] (find_fallback_path [] 3 "s" "e" "s" false).1 ≠
      PathOutcome.failure ∧
    (create_forced_connection_to_end demo_graph 50 300 250 "end_pt" "forced_e" =
      ({ nodes := demo_graph.nodes ++
           [("end_pt", { x := 50, y := 300, ntype := "end_forced", is_virtual := true })],
         edges := demo_graph.edges ++
           [{ u := "n1", v := "end_pt", edge_id := "forced_e", distance := 250,
              width := 10, original_width := 10, speed_limit := 5,
              travel_time := (if (0 : ℚ) < 250 then 250 / 1000 / (5 / 3600) else 1/10),
              is_access_road := true }] }, "end_pt")) := by
  have hnear : nearest_real_node demo_graph 50 300 = some ("n1", 92500) := by
    norm_num [nearest_real_node, demo_graph, dist_sq, List.foldl]
    simp
  refine ⟨c7_find_path_never_fails.1 [] 3 "s" "e" "s" false,
    c7_find_path_never_fails.2.1 [] [] 3 "s" "e" "s" false, ?_⟩
  exact (c7_find_path_never_fails.2.2 demo_graph 50 300 250 "end_pt" "forced_e"
    ("n1", 92500) hnear).1

end UrbanSim
